import Mathlib

/-!
Shallow embedding of the Hyundai car controller (`selfdrive/car/hyundai/carcontroller.py`)
and the event/button portion of the car interface (`selfdrive/car/hyundai/interface.py`).

Python floats are modelled as rationals (all constants in the source are exactly
representable and the program only compares, adds, multiplies and clips them);
Python ints are modelled as `Int` (with `Int.emod` matching Python `%` for a
positive modulus) or as `Nat` where the source value is provably non-negative.
External collaborators (the CAN packer, the SCC smoother, the torque-rate
limiter, the CAN-state parser) are modelled as per-cycle inputs or as function
parameters; the messages they build are kept as semantic records.
-/

namespace ForEQ

/-- Modelled from the spec: unit-conversion constants of the configuration
module (`selfdrive.config.Conversions`), which is outside `src/`.  The values
are the standard physical constants the spec's units (km/h, mph, m/s) imply. -/
def MS_TO_KPH : ℚ := 18 / 5

def KPH_TO_MS : ℚ := 1 / MS_TO_KPH

def MPH_TO_KPH : ℚ := 1609344 / 1000000

def KPH_TO_MPH : ℚ := 1 / MPH_TO_KPH

def MS_TO_MPH : ℚ := MS_TO_KPH * KPH_TO_MPH

/-- Modelled from the spec: `clip` from `common.numpy_fast` (outside `src/`),
the clamp used by the limiter ("clipped to `[ACCEL_MIN, ACCEL_MAX]`"). -/
def clip (x lo hi : ℚ) : ℚ := max lo (min hi x)

/-- `min_set_speed = 30 * CV.KPH_TO_MS` (carcontroller.py line 18). -/
def min_set_speed : ℚ := 30 * KPH_TO_MS

namespace CarControllerParams

/-- `ACCEL_HYST_GAP = 0.02` (carcontroller.py line 22). -/
def ACCEL_HYST_GAP : ℚ := 2 / 100

/-- `ACCEL_MAX = 1.5` (carcontroller.py line 23). -/
def ACCEL_MAX : ℚ := 3 / 2

/-- `ACCEL_MIN = -4.0` (carcontroller.py line 24). -/
def ACCEL_MIN : ℚ := -4

/-- `ACCEL_SCALE = max(ACCEL_MAX, -ACCEL_MIN)` (carcontroller.py line 25). -/
def ACCEL_SCALE : ℚ := max ACCEL_MAX (-ACCEL_MIN)

end CarControllerParams

namespace SteerLimitParams

/-- `STEER_MAX = 409` (carcontroller.py line 32). -/
def STEER_MAX : ℤ := 409

end SteerLimitParams

/-- `DT_CTRL = 0.01`; the blinker countdown `0.5 / DT_CTRL` is exactly the
float `50.0` (both constants round so that the quotient is exact), so the
timer is modelled as a natural number set to 50. -/
def TURNING_SIGNAL_TIMER_RESET : ℕ := 50

/-- Vehicle variants named by the embedded code.  Only the Genesis-family
membership tests of carcontroller.py (lines 67-71 and 120) distinguish
them; every other variant is `otherCar`. -/
inductive CarModel
  | GENESIS
  | GENESIS_G70
  | GENESIS_G80
  | GENESIS_G90
  | GENESIS_G90_L
  | otherCar
deriving DecidableEq

/-- Visual alert request from the planner; the code only tests equality with
`VisualAlert.steerRequired`. -/
inductive VisualAlert
  | steerRequired
  | otherAlert
deriving DecidableEq

namespace Buttons

/-- Modelled from the spec: button codes of the companion `values` module
(outside `src/`).  Only their distinctness and `NONE = 0` are relied on. -/
def NONE : ℕ := 0

def RES_ACCEL : ℕ := 1

def SET_DECEL : ℕ := 2

def GAP_DIST : ℕ := 3

def CANCEL : ℕ := 4

end Buttons

/-- `accel_hysteresis` (carcontroller.py lines 40-48): the raw accel only
moves the steady value once it departs from it by more than the gap; the
returned command is the (possibly lagged) steady value. -/
def accel_hysteresis (accel accel_steady : ℚ) : ℚ × ℚ :=
  let s :=
    if accel > accel_steady + CarControllerParams.ACCEL_HYST_GAP then
      accel - CarControllerParams.ACCEL_HYST_GAP
    else if accel < accel_steady - CarControllerParams.ACCEL_HYST_GAP then
      accel + CarControllerParams.ACCEL_HYST_GAP
    else accel_steady
  (s, s)

/-- The Genesis-family list of carcontroller.py lines 67-71. -/
def genesisFamily : List CarModel :=
  [CarModel.GENESIS, CarModel.GENESIS_G70, CarModel.GENESIS_G80,
   CarModel.GENESIS_G90, CarModel.GENESIS_G90_L]

/-- `process_hud_alert` (carcontroller.py lines 50-73).  Returns
`(sys_warning, sys_state, left_lane_warning, right_lane_warning)`. -/
def process_hud_alert (enabled : Bool) (fingerprint : CarModel)
    (visual_alert : VisualAlert) (left_lane right_lane : Bool)
    (left_lane_depart right_lane_depart : Bool) : Bool × ℤ × ℤ × ℤ :=
  let sys_warning : Bool := visual_alert = VisualAlert.steerRequired
  let sys_state : ℤ :=
    if (left_lane && right_lane) || sys_warning then
      (if enabled || sys_warning then 3 else 4)
    else if left_lane then 5
    else if right_lane then 6
    else 1
  let left_lane_warning : ℤ :=
    if left_lane_depart then (if fingerprint ∈ genesisFamily then 1 else 2) else 0
  let right_lane_warning : ℤ :=
    if right_lane_depart then (if fingerprint ∈ genesisFamily then 1 else 2) else 0
  (sys_warning, sys_state, left_lane_warning, right_lane_warning)

/-- Python `round` (banker's rounding, ties to even), used by
`int(round(actuators.steer * SteerLimitParams.STEER_MAX))`. -/
def pyRound (q : ℚ) : ℤ :=
  let f := ⌊q⌋
  if q - f < 1 / 2 then f
  else if q - f > 1 / 2 then f + 1
  else if f % 2 = 0 then f else f + 1

/-- The set-speed stage of `CarController.update` (carcontroller.py lines
148-150): out-of-range set speeds are replaced by `min_set_speed`, then the
value is converted to the display unit. -/
def setSpeedStage (isSetSpeedInMph : Bool) (set_speed : ℚ) : ℚ :=
  let s :=
    if ¬(min_set_speed < set_speed ∧ set_speed < 255 * KPH_TO_MS) then min_set_speed
    else set_speed
  s * (if isSetSpeedInMph then MS_TO_MPH else MS_TO_KPH)

/-- The three resume-machine fields of `CarController`
(`last_lead_distance`, `resume_cnt`, `resume_wait_timer`). -/
structure RState where
  lastLeadDistance : ℚ
  resumeCnt : ℕ
  resumeWaitTimer : ℕ
deriving DecidableEq

/-- The auto-resume block of `CarController.update` (carcontroller.py lines
192-216).  Returns the new resume fields and whether a resume button press
(`create_clu11 .. Buttons.RES_ACCEL ..`) was emitted this cycle.
`smootherActive` is `self.scc_smoother.is_active(frame)` and `waitCount` is
`SccSmoother.get_wait_count()`, both external collaborator calls. -/
def resumeStep (s : RState) (standstill smootherActive : Bool)
    (leadDistance : ℚ) (waitCount : ℕ) : RState × Bool :=
  if standstill then
    if s.lastLeadDistance = 0 then
      ({ lastLeadDistance := leadDistance, resumeCnt := 0, resumeWaitTimer := 0 }, false)
    else if smootherActive then (s, false)
    else if 0 < s.resumeWaitTimer then
      ({ s with resumeWaitTimer := s.resumeWaitTimer - 1 }, false)
    else if leadDistance ≠ s.lastLeadDistance then
      (if 8 ≤ s.resumeCnt + 1 then
        ({ s with resumeCnt := 0, resumeWaitTimer := waitCount }, true)
      else ({ s with resumeCnt := s.resumeCnt + 1 }, true))
    else (s, false)
  else if s.lastLeadDistance ≠ 0 then ({ s with lastLeadDistance := 0 }, false)
  else (s, false)

/-- Per-cycle collaborator inputs to the resume machine during a standstill
episode: smoother activity, the snapshot's lead distance and the smoother's
wait count. -/
structure RInput where
  smootherActive : Bool
  leadDistance : ℚ
  waitCount : ℕ

/-- Number of resume presses emitted over a run of consecutive standstill
cycles. -/
def resumePresses : RState → List RInput → ℕ
  | _, [] => 0
  | s, i :: l =>
    let r := resumeStep s true i.smootherActive i.leadDistance i.waitCount
    (if r.2 then 1 else 0) + resumePresses r.1 l

/-- Number of cooldown activations (an eighth press, which resets the press
counter and loads the wait timer) over a run of consecutive standstill
cycles. -/
def resumeTriggers : RState → List RInput → ℕ
  | _, [] => 0
  | s, i :: l =>
    let r := resumeStep s true i.smootherActive i.leadDistance i.waitCount
    (if r.2 && decide (8 ≤ s.resumeCnt + 1) then 1 else 0) + resumeTriggers r.1 l

/-- Semantic outgoing CAN messages: one constructor per `create_*` call of
carcontroller.py, carrying the fields the source passes that the claims
observe.  `smootherMsg` stands for whatever the external SCC smoother appends
to `can_sends` in its `update` hook. -/
inductive CanMsg
  | lkas11 (frame : ℕ) (bus : ℕ) (applySteer : ℤ) (lkasActive : Bool) (sysState : ℤ)
  | clu11 (cnt : ℤ) (bus : ℤ) (button : ℕ) (speed : ℚ)
  | scc12 (accel : ℚ) (enabled : Bool) (cnt : ℤ) (sccLive : Bool)
  | scc11 (frame : ℕ) (enabled : Bool) (setSpeed : ℚ) (sccLive : Bool)
  | scc13
  | scc14 (enabled : Bool)
  | mdps12
  | lfahda (enabled : Bool)
  | smootherMsg (k : ℕ)
deriving DecidableEq

/-- The immutable configuration captured by `CarController.__init__`
(carcontroller.py lines 77-96) from the vehicle-parameter record and the
persistent settings. -/
structure CarConfig where
  carFingerprint : CarModel
  maxSteeringAngleDeg : ℚ
  /-- `CP.openpilotLongitudinalControl`. -/
  longcontrol : Bool
  /-- `not CP.radarOffCan`. -/
  sccLive : Bool
  /-- persistent setting `MadModeEnabled`. -/
  madModeEnabled : Bool
  /-- whether `car_fingerprint in FEATURES` for the LFA/MFC message; the
  feature table lives in the companion `values` module outside `src/`. -/
  sendLfaMfa : Bool

/-- The mutable fields of `CarController` (carcontroller.py lines 80-90 plus
the attributes first assigned inside `update`). -/
structure CState where
  accelSteady : ℚ
  applySteerLast : ℤ
  steerRateLimited : Bool
  lkas11Cnt : ℤ
  scc12Cnt : ℤ
  resumeCnt : ℕ
  lastLeadDistance : ℚ
  resumeWaitTimer : ℕ
  turningSignalTimer : ℕ
  applyAccelLast : ℚ
  prevSccCnt : ℤ
deriving DecidableEq

/-- `CarController.__init__` zero-initialises every counter and latch. -/
def initCState : CState :=
  { accelSteady := 0, applySteerLast := 0, steerRateLimited := false,
    lkas11Cnt := 0, scc12Cnt := 0, resumeCnt := 0, lastLeadDistance := 0,
    resumeWaitTimer := 0, turningSignalTimer := 0, applyAccelLast := 0,
    prevSccCnt := 0 }

/-- Per-cycle inputs of `CarController.update`: the planner request, the HUD
request, the vehicle snapshot `CS`, and the values the external collaborators
(SCC smoother, CAN-state parser) return this cycle. -/
structure CSInput where
  enabled : Bool
  gas : ℚ
  brake : ℚ
  steer : ℚ
  pcmCancelCmd : Bool
  visualAlert : VisualAlert
  leftLane : Bool
  rightLane : Bool
  leftLaneDepart : Bool
  rightLaneDepart : Bool
  setSpeed : ℚ
  steeringTorque : ℚ
  steeringAngleDeg : ℚ
  vEgo : ℚ
  leftBlinker : Bool
  rightBlinker : Bool
  /-- `CS.out.cruiseState.standstill`. -/
  standstill : Bool
  /-- `CS.cruiseState_enabled`. -/
  cruiseStateEnabled : Bool
  leadDistance : ℚ
  /-- `CS.clu11` field `CF_Clu_Vanz`. -/
  clu11Speed : ℚ
  isSetSpeedInMph : Bool
  mdpsBus : ℕ
  sccBus : ℤ
  /-- `CS.lkas11` field `CF_Lkas_MsgCount` echoed by the vehicle. -/
  lkas11MsgCount : ℤ
  /-- `CS.scc12` field `CR_VSM_Alive` echoed by the vehicle. -/
  scc12Alive : ℤ
  noRadar : Bool
  /-- `CS.scc11` field `AliveCounterACC`. -/
  scc11AliveCounter : ℤ
  aReqValue : ℚ
  hasScc13 : Bool
  hasScc14 : Bool
  /-- `self.turning_indicator_alert`, set and cleared by the interface. -/
  turningIndicatorAlert : Bool
  /-- `self.scc_smoother.is_active(frame)`. -/
  smootherActive : Bool
  /-- `SccSmoother.get_wait_count()`. -/
  waitCount : ℕ
  /-- first component of `self.scc_smoother.get_fused_accel(...)`. -/
  fusedAccel : ℚ
  /-- messages the smoother appends to `can_sends` in its `update` hook. -/
  smootherSends : List ℕ

/-- The external steering-torque limiter `apply_std_steer_torque_limits`
(imported from `selfdrive.car`, outside `src/`): arguments are the desired
torque, the previous applied torque and the measured driver torque. -/
def Limiter : Type := ℤ → ℤ → ℚ → ℤ

/-- The cadence-and-mode gate of the native-cruise pair (carcontroller.py
line 235): long control on, cruise enabled, SCC off bus 0 or not live, and
an even frame. -/
def sccGate (cfg : CarConfig) (frame : ℕ) (inp : CSInput) : Bool :=
  cfg.longcontrol && inp.cruiseStateEnabled && (inp.sccBus ≠ 0 || !cfg.sccLive)
    && frame % 2 = 0

/-- Whether the lane-keep command is duplicated onto bus 1 (carcontroller.py
line 180). -/
def lkasDup (inp : CSInput) : Bool := inp.mdpsBus ≠ 0 || inp.sccBus = 1

/-- Result of one cycle: the new controller state, the ordered outgoing
message list, and the per-cycle values the controller publishes
(`controls.apply_accel`, the applied steering torque, the lateral gate). -/
structure UpdateResult where
  state : CState
  sends : List CanMsg
  applyAccel : ℚ
  applySteer : ℤ
  lkasActive : Bool

/-- `CarController.update` (carcontroller.py lines 98-254), one control
cycle.  `lim` is the external torque-rate limiter. -/
def update (lim : Limiter) (cfg : CarConfig) (s : CState) (frame : ℕ)
    (inp : CSInput) : UpdateResult :=
  let applyAccelRaw := inp.gas - inp.brake
  let hyst := accel_hysteresis applyAccelRaw s.accelSteady
  let accelSteady := hyst.2
  let applyAccel := clip (hyst.1 * CarControllerParams.ACCEL_SCALE)
    CarControllerParams.ACCEL_MIN CarControllerParams.ACCEL_MAX
  let newSteer := pyRound (inp.steer * (SteerLimitParams.STEER_MAX : ℚ))
  let applySteer0 := lim newSteer s.applySteerLast inp.steeringTorque
  let steerRateLimited : Bool := newSteer ≠ applySteer0
  let lkasActive0 : Bool :=
    inp.enabled && |inp.steeringAngleDeg| < cfg.maxSteeringAngleDeg
  let lkasActive1 : Bool :=
    if inp.vEgo < 60 * KPH_TO_MS ∧ cfg.carFingerprint = CarModel.GENESIS
        ∧ inp.mdpsBus = 0 then false
    else lkasActive0
  let turningSignalTimer0 :=
    if inp.leftBlinker || inp.rightBlinker then TURNING_SIGNAL_TIMER_RESET
    else s.turningSignalTimer
  let lkasActive : Bool :=
    if inp.turningIndicatorAlert ∧ inp.vEgo < 2 * KPH_TO_MS then false
    else lkasActive1
  let turningSignalTimer :=
    if 0 < turningSignalTimer0 then turningSignalTimer0 - 1 else turningSignalTimer0
  let applySteer := if lkasActive then applySteer0 else 0
  let hud := process_hud_alert inp.enabled cfg.carFingerprint inp.visualAlert
    inp.leftLane inp.rightLane inp.leftLaneDepart inp.rightLaneDepart
  let sysState := hud.2.1
  let enabledSpeed0 : ℚ := if inp.isSetSpeedInMph then 38 else 60
  let enabledSpeed :=
    if inp.clu11Speed > enabledSpeed0 ∨ lkasActive = false then inp.clu11Speed
    else enabledSpeed0
  let setSpeedDisp := setSpeedStage inp.isSetSpeedInMph inp.setSpeed
  let lkas11Cnt0 := if frame = 0 then inp.lkas11MsgCount else s.lkas11Cnt
  let scc12Cnt0 :=
    if frame = 0 then (if !inp.noRadar then inp.scc12Alive + 1 else 0)
    else s.scc12Cnt
  let prevSccCnt := inp.scc11AliveCounter
  let lkas11Cnt := (lkas11Cnt0 + 1) % 16
  let scc12Cnt1 := scc12Cnt0 % 15
  let resume := resumeStep
    ⟨s.lastLeadDistance, s.resumeCnt, s.resumeWaitTimer⟩
    inp.standstill inp.smootherActive inp.leadDistance inp.waitCount
  let gate := sccGate cfg frame inp
  let scc12Cnt := if gate then scc12Cnt1 + 1 else scc12Cnt1
  let sends : List CanMsg :=
    [CanMsg.lkas11 frame 0 applySteer lkasActive sysState]
    ++ (if lkasDup inp then
          [CanMsg.lkas11 frame 1 applySteer lkasActive sysState] else [])
    ++ (if frame % 2 ≠ 0 ∧ inp.mdpsBus ≠ 0 then
          [CanMsg.clu11 ((frame / 2 % 16 : ℕ) : ℤ) (inp.mdpsBus : ℤ)
            Buttons.NONE enabledSpeed] else [])
    ++ (if inp.pcmCancelCmd ∧ cfg.longcontrol = true ∧ cfg.madModeEnabled = false then
          [CanMsg.clu11 ((frame % 16 : ℕ) : ℤ) inp.sccBus Buttons.CANCEL
            inp.clu11Speed] else [])
    ++ (if resume.2 then
          [CanMsg.clu11 (s.resumeCnt : ℤ) inp.sccBus Buttons.RES_ACCEL
            inp.clu11Speed] else [])
    ++ inp.smootherSends.map CanMsg.smootherMsg
    ++ (if inp.mdpsBus ≠ 0 then [CanMsg.mdps12] else [])
    ++ (if gate then
          [CanMsg.scc12 inp.fusedAccel inp.enabled scc12Cnt1 cfg.sccLive,
           CanMsg.scc11 frame inp.enabled setSpeedDisp cfg.sccLive]
          ++ (if inp.hasScc13 ∧ frame % 20 = 0 then [CanMsg.scc13] else [])
          ++ (if inp.hasScc14 then [CanMsg.scc14 inp.enabled] else [])
        else [])
    ++ (if frame % 5 = 0 ∧ cfg.sendLfaMfa = true then
          [CanMsg.lfahda inp.enabled] else [])
  { state :=
      { accelSteady := accelSteady, applySteerLast := applySteer,
        steerRateLimited := steerRateLimited, lkas11Cnt := lkas11Cnt,
        scc12Cnt := scc12Cnt, resumeCnt := resume.1.resumeCnt,
        lastLeadDistance := resume.1.lastLeadDistance,
        resumeWaitTimer := resume.1.resumeWaitTimer,
        turningSignalTimer := turningSignalTimer, applyAccelLast := applyAccel,
        prevSccCnt := prevSccCnt },
    sends := sends, applyAccel := applyAccel, applySteer := applySteer,
    lkasActive := lkasActive }

/-- Run the controller for the given per-cycle inputs, starting at the given
frame number (the interface increments `self.frame` once per `apply`).
Returns the final state and the concatenation of all emitted messages. -/
def runCC (lim : Limiter) (cfg : CarConfig) :
    CState → ℕ → List CSInput → CState × List CanMsg
  | s, _, [] => (s, [])
  | s, frame, i :: rest =>
    let r := update lim cfg s frame i
    let t := runCC lim cfg r.state (frame + 1) rest
    (t.1, r.sends ++ t.2)

/-- Counts messages satisfying a predicate. -/
def countMsgs (p : CanMsg → Bool) (l : List CanMsg) : ℕ := l.countP p

/-- Predicate: a lane-keep (LKAS11) message, any bus. -/
def isLkas11 : CanMsg → Bool
  | CanMsg.lkas11 _ _ _ _ _ => true
  | _ => false

/-- Predicate: a lane-keep (LKAS11) message on bus 0. -/
def isLkas11Bus0 : CanMsg → Bool
  | CanMsg.lkas11 _ b _ _ _ => b = 0
  | _ => false

/-- Predicate: a native-cruise SCC12 message. -/
def isScc12 : CanMsg → Bool
  | CanMsg.scc12 _ _ _ _ => true
  | _ => false

/-- Predicate: a native-cruise SCC11 message. -/
def isScc11 : CanMsg → Bool
  | CanMsg.scc11 _ _ _ _ => true
  | _ => false

/-- Predicate: a resume-button press (CLU11 with `Buttons.RES_ACCEL`). -/
def isResumePress : CanMsg → Bool
  | CanMsg.clu11 _ _ b _ => b = Buttons.RES_ACCEL
  | _ => false

/-- Semantic event names used by interface.py; `otherEvent` stands for any
event the external `create_common_events` may report that the embedded code
never tests. -/
inductive Event
  | brakeUnavailable
  | belowSteerSpeed
  | turningIndicatorOn
  | buttonEnable
  | buttonCancel
  | wrongCarMode
  | pcmDisable
  | pedalPressed
  | otherEvent (k : ℕ)
deriving DecidableEq

/-- Button-event types of interface.py lines 300-313. -/
inductive ButtonType
  | accelCruise
  | decelCruise
  | gapAdjustCruise
  | altButton3
  | cancel
  | unknown
deriving DecidableEq

/-- A `car.CarState.ButtonEvent`. -/
structure BtnEvent where
  pressed : Bool
  type : ButtonType
deriving DecidableEq

/-- Per-cycle inputs of the event portion of `CarInterface.update`
(interface.py lines 280-349): the event set the external
`create_common_events` produced, the snapshot signals the block reads, the
configuration booleans, and the controller state it consults. -/
structure IfaceInput where
  /-- events produced by the external `create_common_events(ret)`. -/
  baseEvents : List Event
  cruiseButtons : ℕ
  prevCruiseButtons : ℕ
  cruiseMainButton : ℕ
  prevCruiseMainButton : ℕ
  /-- `ret.cruiseState.enabled` as reported by the vehicle (before the
  mad-mode override). -/
  cruiseEnabledRaw : Bool
  cruiseAvailable : Bool
  leftBlinker : Bool
  rightBlinker : Bool
  vEgo : ℚ
  cruiseUnavail : Bool
  mdpsBus : ℕ
  /-- `LANE_CHANGE_SPEED_MIN`, a constant of the external lateral planner. -/
  laneChangeSpeedMin : ℚ
  /-- `self.CP.minSteerSpeed`. -/
  minSteerSpeed : ℚ
  /-- `self.CC.turning_signal_timer`. -/
  turningSignalTimer : ℕ
  /-- `self.low_speed_alert` carried from the previous cycle. -/
  lowSpeedAlert : Bool
  /-- `self.CC.longcontrol`. -/
  longcontrol : Bool
  /-- `self.CC.scc_live`. -/
  sccLive : Bool
  /-- persistent setting `MadModeEnabled`. -/
  madMode : Bool

/-- Outputs of the event portion of `CarInterface.update`: the event set
(before the external smoother's `inject_events` hook), the button-event
list, the alert latches, and the effective cruise-enabled flag. -/
structure IfaceResult where
  events : List Event
  buttonEvents : List BtnEvent
  turningIndicatorAlert : Bool
  lowSpeedAlert : Bool
  cruiseEnabled : Bool

/-- The per-button handler of interface.py lines 334-349 (the body of
`for b in ret.buttonEvents`), folded over the button-event list. -/
def handleButton (longcontrol sccLive cruiseEnabled : Bool)
    (evs : List Event) (b : BtnEvent) : List Event :=
  let evs1 :=
    if b.type = ButtonType.cancel ∧ b.pressed = true then evs ++ [Event.buttonCancel]
    else evs
  if longcontrol ∧ sccLive = false then
    let evs2 :=
      if (b.type = ButtonType.accelCruise ∨ b.type = ButtonType.decelCruise)
          ∧ b.pressed = false then
        evs1 ++ [Event.buttonEnable]
      else evs1
    (evs2.erase Event.wrongCarMode).erase Event.pcmDisable
  else if longcontrol = false ∧ cruiseEnabled = true then
    if b.type = ButtonType.decelCruise ∧ b.pressed = false then
      evs1 ++ [Event.buttonEnable]
    else evs1
  else evs1

/-- Mad-mode override of the reported cruise-enabled flag (interface.py
lines 280-281). -/
def ifaceCruiseEnabled (inp : IfaceInput) : Bool :=
  if inp.madMode then inp.cruiseAvailable else inp.cruiseEnabledRaw

/-- Turning-indicator alert latch (interface.py lines 284-287). -/
def ifaceTurningAlert (inp : IfaceInput) : Bool :=
  (inp.leftBlinker || inp.rightBlinker || inp.turningSignalTimer ≠ 0)
    && inp.vEgo < inp.laneChangeSpeedMin - 6 / 5

/-- Low-speed steering alert hysteresis (interface.py lines 290-293): the
two sequential latched assignments. -/
def ifaceLowSpeedAlert (inp : IfaceInput) : Bool :=
  let lowAlert0 : Bool :=
    if inp.vEgo < inp.minSteerSpeed + 1 / 5 ∧ inp.minSteerSpeed > 10 then true
    else inp.lowSpeedAlert
  if inp.vEgo > inp.minSteerSpeed + 7 / 10 then false else lowAlert0

/-- Button-event edge detection (interface.py lines 295-316). -/
def ifaceButtonEvents (inp : IfaceInput) : List BtnEvent :=
  (if inp.cruiseButtons ≠ inp.prevCruiseButtons then
    (let pressed : Bool := inp.cruiseButtons ≠ 0
     let but := if pressed then inp.cruiseButtons else inp.prevCruiseButtons
     let ty :=
       if but = Buttons.RES_ACCEL then ButtonType.accelCruise
       else if but = Buttons.SET_DECEL then ButtonType.decelCruise
       else if but = Buttons.GAP_DIST then ButtonType.gapAdjustCruise
       else ButtonType.unknown
     [{ pressed := pressed, type := ty }])
  else [])
  ++ (if inp.cruiseMainButton ≠ inp.prevCruiseMainButton then
        [{ pressed := inp.cruiseMainButton ≠ 0, type := ButtonType.altButton3 }]
      else [])

/-- The event set before the button-handler loop (interface.py lines
318-331): the external common events plus the conditional additions, with
the mad-mode removal of the pedal-pressed condition. -/
def ifacePreButtonEvents (inp : IfaceInput) : List Event :=
  let events1 := inp.baseEvents
    ++ (if inp.longcontrol ∧ inp.cruiseUnavail then [Event.brakeUnavailable] else [])
    ++ (if ifaceLowSpeedAlert inp ∧ inp.mdpsBus = 0 then [Event.belowSteerSpeed] else [])
    ++ (if ifaceTurningAlert inp = true then [Event.turningIndicatorOn] else [])
  if inp.madMode then events1.erase Event.pedalPressed else events1

/-- The event/button portion of `CarInterface.update` (interface.py lines
280-349): mad-mode override, turning-indicator and low-speed alert latches,
button-event edge detection, event additions/removals, and the button
handler loop.  Stops just before the external smoother's `inject_events`
hook. -/
def interfaceEvents (inp : IfaceInput) : IfaceResult :=
  { events := (ifaceButtonEvents inp).foldl
      (handleButton inp.longcontrol inp.sccLive (ifaceCruiseEnabled inp))
      (ifacePreButtonEvents inp),
    buttonEvents := ifaceButtonEvents inp,
    turningIndicatorAlert := ifaceTurningAlert inp,
    lowSpeedAlert := ifaceLowSpeedAlert inp,
    cruiseEnabled := ifaceCruiseEnabled inp }

/-- A concrete torque limiter instance for witnesses (the identity limiter). -/
def lim0 : Limiter := fun n _ _ => n

/-- A concrete configuration for witnesses. -/
def cfg0 : CarConfig :=
  { carFingerprint := CarModel.otherCar, maxSteeringAngleDeg := 90,
    longcontrol := false, sccLive := true, madModeEnabled := false,
    sendLfaMfa := false }

/-- A concrete all-quiet per-cycle input for witnesses. -/
def inp0 : CSInput :=
  { enabled := false, gas := 0, brake := 0, steer := 0, pcmCancelCmd := false,
    visualAlert := VisualAlert.otherAlert, leftLane := false, rightLane := false,
    leftLaneDepart := false, rightLaneDepart := false, setSpeed := 0,
    steeringTorque := 0, steeringAngleDeg := 0, vEgo := 0, leftBlinker := false,
    rightBlinker := false, standstill := false, cruiseStateEnabled := false,
    leadDistance := 0, clu11Speed := 0, isSetSpeedInMph := false, mdpsBus := 0,
    sccBus := 0, lkas11MsgCount := 0, scc12Alive := 0, noRadar := false,
    scc11AliveCounter := 0, aReqValue := 0, hasScc13 := false, hasScc14 := false,
    turningIndicatorAlert := false, smootherActive := false, waitCount := 0,
    fusedAccel := 0, smootherSends := [] }

/-- Remaining press budget of the resume machine before a cooldown must
fire: a fresh (or baseline-capturing) state may press up to 7 times without
triggering, the 8th press being the trigger itself. -/
def resumeBudget (s : RState) : ℕ :=
  if s.lastLeadDistance = 0 then 7 else 7 - s.resumeCnt

/-- A concrete all-quiet interface input for witnesses. -/
def iinp0 : IfaceInput :=
  { baseEvents := [], cruiseButtons := 0, prevCruiseButtons := 0,
    cruiseMainButton := 0, prevCruiseMainButton := 0, cruiseEnabledRaw := false,
    cruiseAvailable := false, leftBlinker := false, rightBlinker := false,
    vEgo := 0, cruiseUnavail := false, mdpsBus := 0, laneChangeSpeedMin := 10,
    minSteerSpeed := 0, turningSignalTimer := 0, lowSpeedAlert := false,
    longcontrol := false, sccLive := true, madMode := false }

/-- C2: the hysteresis filter's steady value changes only when the raw accel
input (gas minus brake) differs from the current steady value by more than
0.02; the emitted acceleration command is the new steady value scaled by
`max(ACCEL_MAX, |ACCEL_MIN|)` and clipped, hence always within
`[-4.0, 1.5]`. -/
theorem accel_hysteresis_steady_and_bounds (lim : Limiter) (cfg : CarConfig)
    (s : CState) (frame : ℕ) (inp : CSInput) :
    (|inp.gas - inp.brake - s.accelSteady| ≤ CarControllerParams.ACCEL_HYST_GAP →
      (update lim cfg s frame inp).state.accelSteady = s.accelSteady)
    ∧ (update lim cfg s frame inp).applyAccel =
        clip ((update lim cfg s frame inp).state.accelSteady *
          CarControllerParams.ACCEL_SCALE)
          CarControllerParams.ACCEL_MIN CarControllerParams.ACCEL_MAX
    ∧ (-4 : ℚ) ≤ (update lim cfg s frame inp).applyAccel
    ∧ (update lim cfg s frame inp).applyAccel ≤ 3 / 2 := by
  refine ⟨?_, ?_, ?_, ?_⟩
  · intro h
    rw [abs_le] at h
    simp only [update, accel_hysteresis, CarControllerParams.ACCEL_HYST_GAP] at *
    split_ifs with h1 h2
    · linarith [h.1, h.2]
    · linarith [h.1, h.2]
    · rfl
  · simp only [update, accel_hysteresis]
  · simp only [update, clip, CarControllerParams.ACCEL_MIN,
      CarControllerParams.ACCEL_MAX]
    exact le_max_left _ _
  · simp only [update, clip, CarControllerParams.ACCEL_MIN,
      CarControllerParams.ACCEL_MAX]
    refine max_le (by norm_num) (min_le_left _ _)

/-- Witness for C2 at a concrete quiet input: the steady value does not move
and the command is within bounds. -/
theorem accel_hysteresis_steady_and_bounds_witness :
    (update lim0 cfg0 initCState 0 inp0).state.accelSteady = initCState.accelSteady
    ∧ (-4 : ℚ) ≤ (update lim0 cfg0 initCState 0 inp0).applyAccel :=
  ⟨(accel_hysteresis_steady_and_bounds lim0 cfg0 initCState 0 inp0).1 (by
      norm_num [inp0, initCState, CarControllerParams.ACCEL_HYST_GAP]),
   (accel_hysteresis_steady_and_bounds lim0 cfg0 initCState 0 inp0).2.2.1⟩

/-- Membership in a conditionally-present message segment. -/
theorem mem_ite_nil_iff {α : Type} (x : α) (c : Prop) [Decidable c]
    (l : List α) : (x ∈ if c then l else []) ↔ c ∧ x ∈ l := by
  split_ifs with h <;> simp [h]

/-- Every lane-keep message a cycle emits carries that cycle's applied
steering torque. -/
theorem update_lkas11_steer (lim : Limiter) (cfg : CarConfig) (s : CState)
    (frame : ℕ) (inp : CSInput) :
    ∀ fr b st act ss, CanMsg.lkas11 fr b st act ss ∈
      (update lim cfg s frame inp).sends →
      st = (update lim cfg s frame inp).applySteer := by
  intro fr b st act ss hm
  simp only [update] at hm ⊢
  simp [List.mem_append, mem_ite_nil_iff] at hm
  try simp [List.mem_append, mem_ite_nil_iff]
  tauto

/-- C3: whenever global enablement is false the applied steering torque is
zero regardless of every other input (including the external limiter), zero
is what every emitted lane-keep message carries, and zero is stored as the
previous applied torque for the next cycle. -/
theorem lateral_gate_forces_zero (lim : Limiter) (cfg : CarConfig) (s : CState)
    (frame : ℕ) (inp : CSInput) (h : inp.enabled = false) :
    (update lim cfg s frame inp).applySteer = 0
    ∧ (update lim cfg s frame inp).state.applySteerLast = 0
    ∧ ∀ fr b st act ss, CanMsg.lkas11 fr b st act ss ∈
        (update lim cfg s frame inp).sends → st = 0 := by
  have hact : ∀ r, (update lim cfg s frame inp).applySteer = r → r = 0 := by
    intro r hr
    simp only [update, h, Bool.false_and, Bool.if_false_left,
      Bool.if_false_right] at hr
    split_ifs at hr <;> simp_all
  refine ⟨hact _ rfl, ?_, ?_⟩
  · have : (update lim cfg s frame inp).state.applySteerLast =
        (update lim cfg s frame inp).applySteer := by
      simp only [update]
    rw [this, hact _ rfl]
  · intro fr b st act ss hm
    rw [update_lkas11_steer lim cfg s frame inp fr b st act ss hm]
    exact hact _ rfl

/-- Witness for C3: with enablement off, the concrete quiet input yields zero
applied torque and a zero stored torque. -/
theorem lateral_gate_forces_zero_witness :
    (update lim0 cfg0 initCState 0 inp0).applySteer = 0
    ∧ (update lim0 cfg0 initCState 0 inp0).state.applySteerLast = 0 :=
  ⟨(lateral_gate_forces_zero lim0 cfg0 initCState 0 inp0 rfl).1,
   (lateral_gate_forces_zero lim0 cfg0 initCState 0 inp0 rfl).2.1⟩

/-- C8: the HUD display code follows the spec's decision chain: 3 when (both
lanes or warning) and (enabled or warning); 4 when (both lanes or warning)
but neither enabled nor warning; 5 when only the left lane is visible (no
warning); 6 when only the right lane; 1 when nothing is visible and there is
no warning. -/
theorem hud_display_codes (enabled : Bool) (fp : CarModel) (va : VisualAlert)
    (l r ld rd : Bool) :
    (((l && r) || decide (va = VisualAlert.steerRequired)) = true →
      (enabled || decide (va = VisualAlert.steerRequired)) = true →
      (process_hud_alert enabled fp va l r ld rd).2.1 = 3)
    ∧ (((l && r) || decide (va = VisualAlert.steerRequired)) = true →
      enabled = false → va ≠ VisualAlert.steerRequired →
      (process_hud_alert enabled fp va l r ld rd).2.1 = 4)
    ∧ (l = true → r = false → va ≠ VisualAlert.steerRequired →
      (process_hud_alert enabled fp va l r ld rd).2.1 = 5)
    ∧ (l = false → r = true → va ≠ VisualAlert.steerRequired →
      (process_hud_alert enabled fp va l r ld rd).2.1 = 6)
    ∧ (l = false → r = false → va ≠ VisualAlert.steerRequired →
      (process_hud_alert enabled fp va l r ld rd).2.1 = 1) := by
  cases va <;> cases l <;> cases r <;> cases enabled <;>
    simp [process_hud_alert]

/-- Witness for C8, the three concrete cases named by the claim: both lanes
with no warning while enabled gives 3, nothing visible gives 1, and only the
right lane gives 6. -/
theorem hud_display_codes_witness :
    (process_hud_alert true CarModel.otherCar VisualAlert.otherAlert
      true true false false).2.1 = 3
    ∧ (process_hud_alert false CarModel.otherCar VisualAlert.otherAlert
      false false false false).2.1 = 1
    ∧ (process_hud_alert false CarModel.otherCar VisualAlert.otherAlert
      false true false false).2.1 = 6 :=
  ⟨(hud_display_codes true CarModel.otherCar VisualAlert.otherAlert
      true true false false).1 (by decide) (by decide),
   (hud_display_codes false CarModel.otherCar VisualAlert.otherAlert
      false false false false).2.2.2.2 rfl rfl (by decide),
   (hud_display_codes false CarModel.otherCar VisualAlert.otherAlert
      false true false false).2.2.2.1 rfl rfl (by decide)⟩

/-- C9: a set speed not strictly between 30 km/h and 255 km/h (in m/s) is
replaced by exactly 30 km/h before the unit conversion; a set speed strictly
inside the range passes through unchanged apart from the conversion; and the
converted value is what the emitted native-cruise SCC11 message carries
whenever the cadence gate fires. -/
theorem set_speed_clamp (isMph : Bool) (v : ℚ) :
    (¬(min_set_speed < v ∧ v < 255 * KPH_TO_MS) →
      setSpeedStage isMph v =
        min_set_speed * (if isMph then MS_TO_MPH else MS_TO_KPH))
    ∧ ((min_set_speed < v ∧ v < 255 * KPH_TO_MS) →
      setSpeedStage isMph v = v * (if isMph then MS_TO_MPH else MS_TO_KPH))
    ∧ (∀ (lim : Limiter) (cfg : CarConfig) (s : CState) (frame : ℕ)
        (inp : CSInput), sccGate cfg frame inp = true →
        CanMsg.scc11 frame inp.enabled
            (setSpeedStage inp.isSetSpeedInMph inp.setSpeed) cfg.sccLive ∈
          (update lim cfg s frame inp).sends) := by
  refine ⟨?_, ?_, ?_⟩
  · intro h
    simp [setSpeedStage, h]
  · intro h
    simp [setSpeedStage, h]
  · intro lim cfg s frame inp hg
    simp [update, hg, List.mem_append]

/-- Witness for C9: a zero set speed is out of range and is replaced by
30 km/h; the concrete gated cycle carries the converted value in SCC11. -/
theorem set_speed_clamp_witness :
    setSpeedStage false 0 = min_set_speed * MS_TO_KPH
    ∧ CanMsg.scc11 0 false (setSpeedStage false 0) true ∈
        (update lim0
          { cfg0 with longcontrol := true }
          initCState 0
          { inp0 with cruiseStateEnabled := true, sccBus := 1 }).sends := by
  constructor
  · have := (set_speed_clamp false 0).1 (by norm_num [min_set_speed, KPH_TO_MS,
      MS_TO_KPH])
    simpa using this
  · have := (set_speed_clamp false 0).2.2 lim0
      { cfg0 with longcontrol := true } initCState 0
      { inp0 with cruiseStateEnabled := true, sccBus := 1 }
      (by decide)
    simpa [inp0] using this

/-- Counting over a conditionally-present message segment. -/
theorem countP_ite_nil {α : Type} (p : α → Bool) (c : Prop) [Decidable c]
    (l : List α) :
    List.countP p (if c then l else []) = if c then List.countP p l else 0 := by
  split_ifs <;> simp

/-- One cycle emits exactly one resume-button message when the resume block
presses, and none otherwise. -/
theorem update_resume_press_count (lim : Limiter) (cfg : CarConfig)
    (cs : CState) (frame : ℕ) (inp : CSInput) :
    countMsgs isResumePress (update lim cfg cs frame inp).sends =
      if (resumeStep ⟨cs.lastLeadDistance, cs.resumeCnt, cs.resumeWaitTimer⟩
          inp.standstill inp.smootherActive inp.leadDistance inp.waitCount).2
      then 1 else 0 := by
  simp [update, countMsgs, countP_ite_nil, List.countP_append,
    List.countP_cons, List.countP_map, isResumePress, Buttons.NONE,
    Buttons.RES_ACCEL, Buttons.CANCEL, Function.comp]

/-- Press-count bound for the resume machine over any run of consecutive
standstill cycles: presses never exceed eight per cooldown activation plus
the initial budget. -/
theorem resume_budget_bound (l : List RInput) :
    ∀ (s : RState), s.resumeCnt ≤ 7 →
      resumePresses s l ≤ 8 * resumeTriggers s l + resumeBudget s := by
  induction l with
  | nil => intro s h; simp [resumePresses, resumeTriggers]
  | cons i l ih =>
    intro s h
    simp only [resumePresses, resumeTriggers]
    by_cases h1 : s.lastLeadDistance = 0
    · -- capture: baseline was 0
      have hR : resumeStep s true i.smootherActive i.leadDistance i.waitCount
          = (⟨i.leadDistance, 0, 0⟩, false) := by simp [resumeStep, h1]
      rw [hR]
      have hbs : resumeBudget s = 7 := by simp [resumeBudget, h1]
      have hb : resumeBudget ⟨i.leadDistance, 0, 0⟩ ≤ 7 := by
        unfold resumeBudget; split_ifs <;> omega
      have hih := ih ⟨i.leadDistance, 0, 0⟩ (by simp)
      simp only [Bool.false_and, if_false]
      omega
    · by_cases h2 : i.smootherActive = true
      · -- smoother active: no action
        have hR : resumeStep s true i.smootherActive i.leadDistance i.waitCount
            = (s, false) := by simp [resumeStep, h1, h2]
        rw [hR]
        have hih := ih s h
        simp only [Bool.false_and, if_false]
        omega
      · by_cases h3 : 0 < s.resumeWaitTimer
        · -- cooldown decrement
          have hR : resumeStep s true i.smootherActive i.leadDistance
              i.waitCount = ({ s with resumeWaitTimer := s.resumeWaitTimer - 1 },
                false) := by
            simp [resumeStep, h1, h2, h3]
          rw [hR]
          have hih := ih { s with resumeWaitTimer := s.resumeWaitTimer - 1 } h
          have hb : resumeBudget { s with
              resumeWaitTimer := s.resumeWaitTimer - 1 } = resumeBudget s := rfl
          rw [hb] at hih
          simp only [Bool.false_and, if_false]
          omega
        · by_cases h4 : i.leadDistance = s.lastLeadDistance
          · -- lead distance unchanged: no press
            have hR : resumeStep s true i.smootherActive i.leadDistance
                i.waitCount = (s, false) := by
              simp [resumeStep, h1, h2, h3, h4]
            rw [hR]
            have hih := ih s h
            simp only [Bool.false_and, if_false]
            omega
          · by_cases h5 : 8 ≤ s.resumeCnt + 1
            · -- eighth press: cooldown trigger
              have hR : resumeStep s true i.smootherActive i.leadDistance i.waitCount = ({ s with resumeCnt := 0, resumeWaitTimer := i.waitCount }, true) := by
                simp [resumeStep, h1, h2, h3, h4, h5]
              rw [hR]
              have hbs : resumeBudget s = 7 - s.resumeCnt := by
                simp [resumeBudget, h1]
              have hb : resumeBudget { s with resumeCnt := 0, resumeWaitTimer := i.waitCount } ≤ 7 := by
                unfold resumeBudget; split_ifs <;> omega
              have hih := ih { s with resumeCnt := 0, resumeWaitTimer := i.waitCount } (by simp)
              have hd : decide (8 ≤ s.resumeCnt + 1) = true := by simp [h5]
              simp only [hd, Bool.and_true, if_true]
              omega
            · -- press without trigger
              have hR : resumeStep s true i.smootherActive i.leadDistance
                  i.waitCount = ({ s with resumeCnt := s.resumeCnt + 1 },
                    true) := by
                simp [resumeStep, h1, h2, h3, h4, h5]
              rw [hR]
              have hbs : resumeBudget s = 7 - s.resumeCnt := by
                simp [resumeBudget, h1]
              have hb : resumeBudget { s with resumeCnt := s.resumeCnt + 1 }
                  = 7 - (s.resumeCnt + 1) := by
                simp [resumeBudget, h1]
              have hih := ih { s with resumeCnt := s.resumeCnt + 1 } (by
                simp; omega)
              rw [hb] at hih
              have hd : decide (8 ≤ s.resumeCnt + 1) = false := by
                simp; omega
              rw [hbs]
              simp only [hd, Bool.and_false, if_false]
              simp <;> omega

/-- C1 counterexample: during a standstill episode with a captured nonzero
baseline and a nonzero cooldown counter of 5, a cycle on which the external
smoother reports itself active leaves the cooldown counter at 5 instead of
decrementing it to 4 (the smoother check precedes the cooldown check), so
the cooldown counter does not decrement by one on every standstill cycle on
which it is nonzero. -/
theorem resume_cooldown_counterexample :
    (resumeStep ⟨1, 0, 5⟩ true true 2 9).1.resumeWaitTimer = 5
    ∧ (resumeStep ⟨1, 0, 5⟩ true true 2 9).2 = false
    ∧ (5 : ℕ) ≠ 5 - 1 := by decide

/-- C1 (amended): within one standstill episode at most 8 resume presses are
emitted before a cooldown activation (7 plus the activating press, and in
general at most 8 per activation plus 7); a press never happens while the
cooldown counter is nonzero; the eighth press resets the press counter to
zero and loads the cooldown counter with the collaborator's wait count; on
smoother-inactive cycles a nonzero cooldown counter blocks the press and
decrements by one (on smoother-active cycles it is left unchanged); and one
cycle of the controller emits exactly one resume-button message per press of
the resume block. -/
theorem resume_burst_bounded (s : RState) (l : List RInput)
    (h7 : s.resumeCnt ≤ 7) :
    (resumeTriggers s l = 0 → resumePresses s l ≤ 8)
    ∧ resumePresses s l ≤ 8 * resumeTriggers s l + 7
    ∧ (∀ (t : RState) (sa : Bool) (ld : ℚ) (wc : ℕ),
        (resumeStep t true sa ld wc).2 = true → t.resumeWaitTimer = 0)
    ∧ (∀ (t : RState) (ld : ℚ) (wc : ℕ), t.resumeCnt = 7 →
        (resumeStep t true false ld wc).2 = true →
        (resumeStep t true false ld wc).1.resumeCnt = 0
        ∧ (resumeStep t true false ld wc).1.resumeWaitTimer = wc)
    ∧ (∀ (t : RState) (ld : ℚ) (wc : ℕ), t.lastLeadDistance ≠ 0 →
        0 < t.resumeWaitTimer →
        (resumeStep t true false ld wc).2 = false
        ∧ (resumeStep t true false ld wc).1.resumeWaitTimer
            = t.resumeWaitTimer - 1
        ∧ (resumeStep t true true ld wc).1.resumeWaitTimer
            = t.resumeWaitTimer)
    ∧ (∀ (lim : Limiter) (cfg : CarConfig) (cs : CState) (frame : ℕ)
        (inp : CSInput),
        countMsgs isResumePress (update lim cfg cs frame inp).sends =
          if (resumeStep ⟨cs.lastLeadDistance, cs.resumeCnt,
              cs.resumeWaitTimer⟩ inp.standstill inp.smootherActive
              inp.leadDistance inp.waitCount).2
          then 1 else 0) := by
  have hbound := resume_budget_bound l s h7
  have hb7 : resumeBudget s ≤ 7 := by unfold resumeBudget; split_ifs <;> omega
  refine ⟨?_, by omega, ?_, ?_, ?_, update_resume_press_count⟩
  · intro h0
    rw [h0] at hbound
    omega
  · intro t sa ld wc hp
    by_contra hw
    simp only [resumeStep] at hp
    split_ifs at hp <;> simp_all <;> omega
  · intro t ld wc hc hp
    simp only [resumeStep] at hp ⊢
    split_ifs at hp <;> split_ifs <;> simp_all <;> omega
  · intro t ld wc hl hw
    simp only [resumeStep]
    split_ifs <;> simp_all <;> omega

/-- Witness for C1: from a captured baseline of 5, eight cycles with a
different lead distance stay within the burst bound, and seven such cycles
trigger no cooldown and stay within eight presses. -/
theorem resume_burst_bounded_witness :
    resumePresses ⟨5, 0, 0⟩
        (List.replicate 8 (⟨false, 6, 9⟩ : RInput)) ≤
      8 * resumeTriggers ⟨5, 0, 0⟩
        (List.replicate 8 (⟨false, 6, 9⟩ : RInput)) + 7
    ∧ resumePresses ⟨5, 0, 0⟩
        (List.replicate 7 (⟨false, 6, 9⟩ : RInput)) ≤ 8 :=
  ⟨(resume_burst_bounded ⟨5, 0, 0⟩ _ (by decide)).2.1,
   (resume_burst_bounded ⟨5, 0, 0⟩
      (List.replicate 7 (⟨false, 6, 9⟩ : RInput)) (by decide)).1 (by decide)⟩

/-- C10 counterexample: the reset on a zero lead distance happens only while
the stored baseline is 0.  On a standstill cycle with a stored baseline of 5
and a snapshot lead distance of 0, the lead distance merely differs from the
baseline (carcontroller.py line 206), so a resume press is emitted, the
press counter increments to 1, and the baseline stays 5 instead of being
reset — at controller level one resume-button message is emitted on such a
cycle, contradicting the claim's "no resume-button message is emitted and
the stored baseline, press counter, and cooldown counter are all (re)set to
0". -/
theorem resume_zero_lead_press_counterexample :
    (resumeStep ⟨5, 0, 0⟩ true false 0 9).2 = true
    ∧ (resumeStep ⟨5, 0, 0⟩ true false 0 9).1 = (⟨5, 1, 0⟩ : RState)
    ∧ countMsgs isResumePress (update lim0 cfg0 { initCState with lastLeadDistance := 5 } 3 { inp0 with standstill := true }).sends = 1
    ∧ (5 : ℚ) ≠ 0 := by decide

/-- C10 (amended): on a standstill cycle whose snapshot lead distance is 0
and whose stored baseline is 0 (in particular the first cycle of a
standstill episode), no resume press is emitted and baseline, press counter
and cooldown counter are all (re)set to 0; a press requires a nonzero stored
baseline and a lead distance different from it; a capture cycle stores the
snapshot's lead distance as the new baseline; and at controller level such a
cycle emits no resume-button message. -/
theorem resume_requires_captured_baseline :
    (∀ (t : RState) (sa : Bool) (wc : ℕ), t.lastLeadDistance = 0 →
      resumeStep t true sa 0 wc = (⟨0, 0, 0⟩, false))
    ∧ (∀ (t : RState) (sa : Bool) (ld : ℚ) (wc : ℕ),
        (resumeStep t true sa ld wc).2 = true →
        t.lastLeadDistance ≠ 0 ∧ ld ≠ t.lastLeadDistance)
    ∧ (∀ (t : RState) (sa : Bool) (ld : ℚ) (wc : ℕ), t.lastLeadDistance = 0 →
        (resumeStep t true sa ld wc).1.lastLeadDistance = ld)
    ∧ (∀ (lim : Limiter) (cfg : CarConfig) (cs : CState) (frame : ℕ)
        (inp : CSInput), inp.standstill = true → inp.leadDistance = 0 →
        cs.lastLeadDistance = 0 →
        countMsgs isResumePress (update lim cfg cs frame inp).sends = 0
        ∧ (update lim cfg cs frame inp).state.lastLeadDistance = 0
        ∧ (update lim cfg cs frame inp).state.resumeCnt = 0
        ∧ (update lim cfg cs frame inp).state.resumeWaitTimer = 0) := by
  have hcap : ∀ (t : RState) (sa : Bool) (wc : ℕ), t.lastLeadDistance = 0 →
      resumeStep t true sa 0 wc = (⟨0, 0, 0⟩, false) := by
    intro t sa wc h0
    simp [resumeStep, h0]
  refine ⟨hcap, ?_, ?_, ?_⟩
  · intro t sa ld wc hp
    simp only [resumeStep] at hp
    split_ifs at hp <;> simp_all
  · intro t sa ld wc h0
    simp [resumeStep, h0]
  · intro lim cfg cs frame inp hss hld h0
    have hr : resumeStep ⟨cs.lastLeadDistance, cs.resumeCnt,
        cs.resumeWaitTimer⟩ inp.standstill inp.smootherActive
        inp.leadDistance inp.waitCount = (⟨0, 0, 0⟩, false) := by
      rw [hss, hld]
      exact hcap _ _ _ h0
    refine ⟨?_, ?_, ?_, ?_⟩
    · rw [update_resume_press_count, hr]
      rfl
    · simp only [update, hr]
    · simp only [update, hr]
    · simp only [update, hr]

/-- Witness for C10 at a concrete standstill cycle with zero lead distance:
the controller emits no resume press and fully resets the resume fields. -/
theorem resume_requires_captured_baseline_witness :
    countMsgs isResumePress
        (update lim0 cfg0 initCState 3 { inp0 with standstill := true }).sends = 0
    ∧ (update lim0 cfg0 initCState 3
        { inp0 with standstill := true }).state.resumeCnt = 0 :=
  ⟨(resume_requires_captured_baseline.2.2.2 lim0 cfg0 initCState 3
      { inp0 with standstill := true } rfl rfl rfl).1,
   (resume_requires_captured_baseline.2.2.2 lim0 cfg0 initCState 3
      { inp0 with standstill := true } rfl rfl rfl).2.2.1⟩

/-- C6 counterexample: the blinker countdown reset is level-triggered, not
transition-triggered.  Starting a cycle with the timer at 49 (the value one
cycle after a blinker activation) and the blinker still held on — not a
transition to active — the code reloads the countdown (50, then the same
cycle's decrement leaves 49) instead of merely decrementing it to 48 as a
transition-only reset would. -/
theorem blinker_timer_counterexample :
    (update lim0 cfg0 { initCState with turningSignalTimer := 49 } 1
      { inp0 with leftBlinker := true }).state.turningSignalTimer = 49
    ∧ (49 : ℕ) ≠ 49 - 1 := by
  constructor
  · simp [update, inp0, TURNING_SIGNAL_TIMER_RESET]
  · decide

/-- C6 (amended): on every cycle on which a blinker is active (whether or not
that is a transition) the countdown is reloaded to 0.5 s worth of cycles (50,
observed as 49 after the same cycle's decrement); on blinker-off cycles a
nonzero countdown decrements by exactly one; and whenever the turning
indicator alert holds with speed below 2 km/h the applied steering torque is
forced to zero. -/
theorem blinker_timer_level_reset (lim : Limiter) (cfg : CarConfig)
    (s : CState) (frame : ℕ) (inp : CSInput) :
    ((inp.leftBlinker || inp.rightBlinker) = true →
      (update lim cfg s frame inp).state.turningSignalTimer =
        TURNING_SIGNAL_TIMER_RESET - 1)
    ∧ ((inp.leftBlinker || inp.rightBlinker) = false →
      (update lim cfg s frame inp).state.turningSignalTimer =
        s.turningSignalTimer - 1)
    ∧ (inp.turningIndicatorAlert = true → inp.vEgo < 2 * KPH_TO_MS →
      (update lim cfg s frame inp).applySteer = 0
      ∧ (update lim cfg s frame inp).lkasActive = false) := by
  refine ⟨?_, ?_, ?_⟩
  · intro hb
    simp [update, hb, TURNING_SIGNAL_TIMER_RESET]
  · intro hb
    have h1 : inp.leftBlinker = false := by
      cases hl : inp.leftBlinker <;> simp_all
    have h2 : inp.rightBlinker = false := by
      cases hr : inp.rightBlinker <;> simp_all
    simp only [update, h1, h2, Bool.or_self, Bool.false_eq_true, if_false]
    split_ifs with h3 <;> omega
  · intro ha hv
    constructor
    · simp [update, ha, hv]
    · simp [update, ha, hv]

/-- Witness for C6: a blinker-on cycle reloads the countdown, and with the
turning-indicator alert active at standstill speed the torque is zero. -/
theorem blinker_timer_level_reset_witness :
    (update lim0 cfg0 initCState 0
      { inp0 with leftBlinker := true }).state.turningSignalTimer =
        TURNING_SIGNAL_TIMER_RESET - 1
    ∧ (update lim0 cfg0 initCState 0
      { inp0 with turningIndicatorAlert := true }).applySteer = 0 :=
  ⟨(blinker_timer_level_reset lim0 cfg0 initCState 0
      { inp0 with leftBlinker := true }).1 rfl,
   ((blinker_timer_level_reset lim0 cfg0 initCState 0
      { inp0 with turningIndicatorAlert := true }).2.2 rfl
      (by norm_num [inp0, KPH_TO_MS, MS_TO_KPH])).1⟩

/-- C5 counterexample: on cycle 0 with the echoed SCC12 alive counter at 7
and the radar present, the controller seeds its native-cruise counter to the
echo plus one — the state after cycle 0 holds 8, not 7. -/
theorem scc12_seed_counterexample :
    (update lim0 cfg0 initCState 0
      { inp0 with scc12Alive := 7 }).state.scc12Cnt = 8
    ∧ (8 : ℤ) ≠ 7 := by
  constructor
  · simp [update, sccGate, inp0, cfg0]
  · decide

/-- C5 (amended): on cycle 0 with the radar present the native-cruise
counter is seeded to the echoed alive counter plus one (8 when the echo is
7, after the per-cycle wrap modulo 15), and with full longitudinal control
disabled no SCC12/SCC11 accel/speed pair message is emitted at cycle 0 even
though cycle 0 satisfies the even-frame cadence. -/
theorem scc12_seed_and_no_pair_at_frame0 (lim : Limiter) (cfg : CarConfig)
    (s : CState) (inp : CSInput) (hr : inp.noRadar = false)
    (hl : cfg.longcontrol = false) :
    (update lim cfg s 0 inp).state.scc12Cnt = (inp.scc12Alive + 1) % 15
    ∧ countMsgs isScc12 (update lim cfg s 0 inp).sends = 0
    ∧ countMsgs isScc11 (update lim cfg s 0 inp).sends = 0 := by
  have hg : sccGate cfg 0 inp = false := by
    simp [sccGate, hl]
  refine ⟨?_, ?_, ?_⟩
  · simp [update, hg, hr]
  · simp [update, hg, countMsgs, countP_ite_nil, List.countP_append,
      List.countP_cons, List.countP_map, isScc12, Function.comp]
  · simp [update, hg, countMsgs, countP_ite_nil, List.countP_append,
      List.countP_cons, List.countP_map, isScc11, Function.comp]

/-- Witness for C5 at the concrete scenario of the claim: echo 7, radar
present, long control disabled. -/
theorem scc12_seed_and_no_pair_at_frame0_witness :
    (update lim0 cfg0 initCState 0
      { inp0 with scc12Alive := 7 }).state.scc12Cnt = (7 + 1) % 15
    ∧ countMsgs isScc12 (update lim0 cfg0 initCState 0
      { inp0 with scc12Alive := 7 }).sends = 0 :=
  ⟨(scc12_seed_and_no_pair_at_frame0 lim0 cfg0 initCState
      { inp0 with scc12Alive := 7 } rfl rfl).1,
   (scc12_seed_and_no_pair_at_frame0 lim0 cfg0 initCState
      { inp0 with scc12Alive := 7 } rfl rfl).2.1⟩

/-- On every cycle after the first, the lane-keep counter advances by one
modulo 16. -/
theorem update_lkas_cnt (lim : Limiter) (cfg : CarConfig) (s : CState)
    (frame : ℕ) (inp : CSInput) (h : frame ≠ 0) :
    (update lim cfg s frame inp).state.lkas11Cnt = (s.lkas11Cnt + 1) % 16 := by
  simp [update, h]

/-- On every cycle after the first, the native-cruise counter is wrapped
modulo 15 and incremented exactly when the pair message is emitted. -/
theorem update_scc12_cnt (lim : Limiter) (cfg : CarConfig) (s : CState)
    (frame : ℕ) (inp : CSInput) (h : frame ≠ 0) :
    (update lim cfg s frame inp).state.scc12Cnt =
      s.scc12Cnt % 15 + (if sccGate cfg frame inp = true then 1 else 0) := by
  simp only [update, h, if_neg, if_false]
  split_ifs <;> simp_all

/-- Messages appended by the external smoother never count as one of the
controller's own message types. -/
theorem countP_smoother_map (p : CanMsg → Bool)
    (h : ∀ k, p (CanMsg.smootherMsg k) = false) (l : List ℕ) :
    List.countP p (l.map CanMsg.smootherMsg) = 0 := by
  induction l with
  | nil => rfl
  | cons a l ih => simp [List.countP_cons, h, ih]

/-- Each cycle emits exactly one bus-0 lane-keep message, one more copy on
bus 1 when duplication is configured, and one SCC12 message exactly when the
cadence gate fires. -/
theorem update_msg_counts (lim : Limiter) (cfg : CarConfig) (s : CState)
    (frame : ℕ) (inp : CSInput) :
    countMsgs isLkas11Bus0 (update lim cfg s frame inp).sends = 1
    ∧ countMsgs isLkas11 (update lim cfg s frame inp).sends =
        (if lkasDup inp = true then 2 else 1)
    ∧ countMsgs isScc12 (update lim cfg s frame inp).sends =
        (if sccGate cfg frame inp = true then 1 else 0) := by
  refine ⟨?_, ?_, ?_⟩
  · simp [update, countMsgs, countP_ite_nil, List.countP_append,
      List.countP_cons, List.countP_map, isLkas11Bus0, Function.comp]
  · simp [update, countMsgs, countP_ite_nil, List.countP_append,
      List.countP_cons, isLkas11,
      countP_smoother_map isLkas11 (fun _ => rfl)]
    split_ifs <;> simp [isLkas11]
  · simp [update, countMsgs, countP_ite_nil, List.countP_append,
      List.countP_cons, isScc12, countP_smoother_map isScc12 (fun _ => rfl)]

/-- Invariant of a controller run over the cycles after the first: the two
sequence counters advance modulo their respective wrap, stay in range, and
the bus-0 lane-keep emission count equals the number of cycles. -/
theorem runCC_counter_inv (lim : Limiter) (cfg : CarConfig)
    (l : List CSInput) : ∀ (s : CState) (fr : ℕ), fr ≠ 0 →
    (runCC lim cfg s fr l).1.lkas11Cnt % 16 = (s.lkas11Cnt + l.length) % 16
    ∧ (runCC lim cfg s fr l).1.scc12Cnt % 15 =
        (s.scc12Cnt + (countMsgs isScc12 (runCC lim cfg s fr l).2 : ℤ)) % 15
    ∧ (l ≠ [] → 0 ≤ (runCC lim cfg s fr l).1.lkas11Cnt
        ∧ (runCC lim cfg s fr l).1.lkas11Cnt < 16
        ∧ 0 ≤ (runCC lim cfg s fr l).1.scc12Cnt
        ∧ (runCC lim cfg s fr l).1.scc12Cnt ≤ 15)
    ∧ (l = [] → (runCC lim cfg s fr l).1 = s)
    ∧ countMsgs isLkas11Bus0 (runCC lim cfg s fr l).2 = l.length := by
  induction l with
  | nil =>
    intro s fr hf
    simp [runCC, countMsgs]
  | cons i l ih =>
    intro s fr hf
    simp only [runCC]
    have hlk := update_lkas_cnt lim cfg s fr i hf
    have hsc := update_scc12_cnt lim cfg s fr i hf
    have hct := update_msg_counts lim cfg s fr i
    have hihs := ih (update lim cfg s fr i).state (fr + 1) (by omega)
    have happ : ∀ (p : CanMsg → Bool) (a b : List CanMsg),
        countMsgs p (a ++ b) = countMsgs p a + countMsgs p b := by
      intro p a b
      simp [countMsgs, List.countP_append]
    refine ⟨?_, ?_, ?_, ?_, ?_⟩
    · rw [hihs.1, hlk]
      simp only [List.length_cons]
      omega
    · rw [hihs.2.1, hsc, happ, hct.2.2]
      split_ifs <;> push_cast <;> omega
    · intro _
      by_cases hl : l = []
      · rw [(hihs.2.2.2.1 hl)]
        rw [hlk, hsc]
        have h16 : (0 : ℤ) ≤ (s.lkas11Cnt + 1) % 16 ∧
            (s.lkas11Cnt + 1) % 16 < 16 := by omega
        have h15 : (0 : ℤ) ≤ s.scc12Cnt % 15 ∧ s.scc12Cnt % 15 < 15 := by
          omega
        split_ifs <;> refine ⟨by omega, by omega, by omega, by omega⟩
      · exact hihs.2.2.1 hl
    · intro hcontra
      cases hcontra
    · rw [happ, hct.1, hihs.2.2.2.2]
      simp only [List.length_cons]
      omega

/-- C4 counterexample: with the power-steering echo on bus 1 the lane-keep
message is emitted twice per cycle, so after one cycle from construction
(seed 0) two lane-keep messages have been emitted while the counter holds
(0 + 1) mod 16 = 1, not (0 + 2) mod 16 = 2 — the counter does not equal
(seed + emitted_count) mod 16. -/
theorem counters_counterexample :
    countMsgs isLkas11
        (runCC lim0 cfg0 initCState 0 [{ inp0 with mdpsBus := 1 }]).2 = 2
    ∧ (runCC lim0 cfg0 initCState 0
        [{ inp0 with mdpsBus := 1 }]).1.lkas11Cnt = 1
    ∧ ((0 + 2 : ℤ) % 16 = 2 ∧ (1 : ℤ) ≠ 2) := by
  refine ⟨?_, ?_, by decide⟩
  · have h := (update_msg_counts lim0 cfg0 initCState 0
      { inp0 with mdpsBus := 1 }).2.1
    simp only [runCC]
    rw [List.append_nil]
    rw [h]
    decide
  · simp [runCC, update, inp0, initCState]

/-- C4 (amended): for every run of N ≥ 1 cycles from construction the
lane-keep counter equals (seed + N) mod 16 where seed is the cycle-0 echo
and N is the number of cycles — equivalently the number of bus-0 lane-keep
emissions (the bus-1 duplicate, when configured, is not counted); the
native-cruise counter is congruent modulo 15 to its cycle-0 seed (echo + 1
with radar, else 0) plus the number of SCC12 emissions, and lies in
[0, 15]; both counters are never negative. -/
theorem counters_after_run (lim : Limiter) (cfg : CarConfig) (i : CSInput)
    (rest : List CSInput) :
    (runCC lim cfg initCState 0 (i :: rest)).1.lkas11Cnt =
        (i.lkas11MsgCount + (i :: rest).length) % 16
    ∧ countMsgs isLkas11Bus0 (runCC lim cfg initCState 0 (i :: rest)).2 =
        (i :: rest).length
    ∧ (runCC lim cfg initCState 0 (i :: rest)).1.scc12Cnt % 15 =
        ((if !i.noRadar then i.scc12Alive + 1 else 0) +
          (countMsgs isScc12 (runCC lim cfg initCState 0 (i :: rest)).2 : ℤ))
          % 15
    ∧ 0 ≤ (runCC lim cfg initCState 0 (i :: rest)).1.lkas11Cnt
    ∧ 0 ≤ (runCC lim cfg initCState 0 (i :: rest)).1.scc12Cnt
    ∧ (runCC lim cfg initCState 0 (i :: rest)).1.scc12Cnt ≤ 15 := by
  have hu0lk : (update lim cfg initCState 0 i).state.lkas11Cnt =
      (i.lkas11MsgCount + 1) % 16 := by
    simp [update]
  have hu0sc : (update lim cfg initCState 0 i).state.scc12Cnt =
      (if !i.noRadar then i.scc12Alive + 1 else 0) % 15 +
        (if sccGate cfg 0 i = true then 1 else 0) := by
    simp only [update]
    split_ifs <;> simp_all
  have hct := update_msg_counts lim cfg initCState 0 i
  have hinv := runCC_counter_inv lim cfg rest
    (update lim cfg initCState 0 i).state 1 (by omega)
  have happ : ∀ (p : CanMsg → Bool) (a b : List CanMsg),
      countMsgs p (a ++ b) = countMsgs p a + countMsgs p b := by
    intro p a b
    simp [countMsgs, List.countP_append]
  have hrw : runCC lim cfg initCState 0 (i :: rest) =
      ((runCC lim cfg (update lim cfg initCState 0 i).state 1 rest).1,
        (update lim cfg initCState 0 i).sends ++
          (runCC lim cfg (update lim cfg initCState 0 i).state 1 rest).2) := by
    simp [runCC]
  rw [hrw]
  dsimp only
  by_cases hrest : rest = []
  · subst hrest
    have hnil := hinv.2.2.2.1 rfl
    simp only [runCC, hnil]
    rw [hu0lk, hu0sc, happ, happ, hct.1, hct.2.2]
    refine ⟨by simp <;> omega, by simp [countMsgs], ?_, by omega, ?_, ?_⟩
    · simp only [countMsgs, List.countP_nil, Nat.add_zero]
      split_ifs <;> push_cast <;> omega
    · split_ifs <;> omega
    · split_ifs <;> omega
  · have hrange := hinv.2.2.1 hrest
    refine ⟨?_, ?_, ?_, by omega, by omega, by omega⟩
    · have h1 := hinv.1
      rw [hu0lk] at h1
      have : (runCC lim cfg (update lim cfg initCState 0 i).state 1 rest).1.lkas11Cnt
          % 16 = (i.lkas11MsgCount + (i :: rest).length) % 16 := by
        rw [h1]
        simp only [List.length_cons]
        omega
      omega
    · rw [happ, hct.1, hinv.2.2.2.2]
      simp only [List.length_cons]
      omega
    · have h2 := hinv.2.1
      rw [hu0sc] at h2
      rw [happ, hct.2.2]
      push_cast
      push_cast at h2
      split_ifs at h2 ⊢ <;> omega

/-- C7: on a release edge of the decelerate (set) button — the combined
cruise-button code changes from the set code to zero — with full
longitudinal control inactive, the event set gains the "enable requested"
event exactly when cruise is already (effectively) enabled; when cruise is
not enabled, no such event is produced (given the common-events collaborator
did not already report one). -/
theorem handle_fold_mono (sccLive crEn : Bool) (l : List BtnEvent) :
    ∀ (evs : List Event) (x : Event), x ∈ evs →
      x ∈ l.foldl (handleButton false sccLive crEn) evs := by
  induction l with
  | nil => intro evs x hx; exact hx
  | cons b l ih =>
    intro evs x hx
    simp only [List.foldl_cons]
    refine ih _ x ?_
    simp only [handleButton]
    split_ifs <;>
      first
        | (simp only [List.mem_append, List.mem_singleton]; tauto)
        | tauto
        | (exfalso; simp_all; done)

theorem handle_fold_no_new_enable (sccLive : Bool) (l : List BtnEvent) :
    ∀ (evs : List Event) (x : Event),
      x ∈ l.foldl (handleButton false sccLive false) evs →
      x ∈ evs ∨ x = Event.buttonCancel := by
  induction l with
  | nil => intro evs x hx; exact Or.inl hx
  | cons b l ih =>
    intro evs x hx
    simp only [List.foldl_cons] at hx
    rcases ih _ x hx with h | h
    · simp only [handleButton] at h
      split_ifs at h <;>
        first
          | (simp only [List.mem_append, List.mem_singleton] at h; tauto)
          | tauto
          | (exfalso; simp_all; done)
    · exact Or.inr h

theorem pre_events_no_enable (inp : IfaceInput)
    (hbase : Event.buttonEnable ∉ inp.baseEvents) :
    Event.buttonEnable ∉ ifacePreButtonEvents inp := by
  have hgen : Event.buttonEnable ∉ inp.baseEvents
      ++ (if inp.longcontrol ∧ inp.cruiseUnavail then [Event.brakeUnavailable] else [])
      ++ (if ifaceLowSpeedAlert inp ∧ inp.mdpsBus = 0 then [Event.belowSteerSpeed] else [])
      ++ (if ifaceTurningAlert inp = true then [Event.turningIndicatorOn] else []) := by
    intro h
    simp only [List.mem_append, mem_ite_nil_iff, List.mem_singleton] at h
    rcases h with ((h | ⟨_, h⟩) | ⟨_, h⟩) | ⟨_, h⟩
    · exact hbase h
    · cases h
    · cases h
    · cases h
  intro hmem
  simp only [ifacePreButtonEvents] at hmem
  by_cases hmad : inp.madMode = true
  · rw [if_pos hmad] at hmem
    exact hgen (List.mem_of_mem_erase hmem)
  · rw [if_neg hmad] at hmem
    exact hgen hmem

theorem decel_release_enable (inp : IfaceInput)
    (hprev : inp.prevCruiseButtons = Buttons.SET_DECEL)
    (hcur : inp.cruiseButtons = 0)
    (hlong : inp.longcontrol = false) :
    ((interfaceEvents inp).cruiseEnabled = true →
      Event.buttonEnable ∈ (interfaceEvents inp).events)
    ∧ ((interfaceEvents inp).cruiseEnabled = false →
      Event.buttonEnable ∉ inp.baseEvents →
      Event.buttonEnable ∉ (interfaceEvents inp).events) := by
  have hbe : ifaceButtonEvents inp =
      ({ pressed := false, type := ButtonType.decelCruise } : BtnEvent) ::
      (if inp.cruiseMainButton ≠ inp.prevCruiseMainButton then
        [{ pressed := inp.cruiseMainButton ≠ 0, type := ButtonType.altButton3 }]
      else []) := by
    simp [ifaceButtonEvents, hprev, hcur, Buttons.SET_DECEL, Buttons.RES_ACCEL,
      Buttons.GAP_DIST]
  constructor
  · intro hen
    simp only [interfaceEvents] at hen ⊢
    rw [hbe, hlong]
    simp only [List.foldl_cons]
    have hstep : handleButton false inp.sccLive (ifaceCruiseEnabled inp)
        (ifacePreButtonEvents inp)
        { pressed := false, type := ButtonType.decelCruise } =
        ifacePreButtonEvents inp ++ [Event.buttonEnable] := by
      simp [handleButton, hen]
    rw [hstep]
    exact handle_fold_mono inp.sccLive (ifaceCruiseEnabled inp) _ _ _
      (by simp [List.mem_append])
  · intro hen hbase hmem
    simp only [interfaceEvents] at hen hmem
    rw [hlong] at hmem
    rcases handle_fold_no_new_enable inp.sccLive _ _ _ (hen ▸ hmem) with h | h
    · exact pre_events_no_enable inp hbase h
    · cases h

/-- Witness for C7: a concrete decelerate-button release with cruise enabled
produces the enable event; the same release with cruise not enabled does
not. -/
theorem decel_release_enable_witness :
    Event.buttonEnable ∈ (interfaceEvents { iinp0 with prevCruiseButtons := Buttons.SET_DECEL, cruiseEnabledRaw := true }).events
    ∧ Event.buttonEnable ∉ (interfaceEvents { iinp0 with prevCruiseButtons := Buttons.SET_DECEL }).events :=
  ⟨(decel_release_enable { iinp0 with prevCruiseButtons := Buttons.SET_DECEL, cruiseEnabledRaw := true } rfl rfl rfl).1 (by decide),
   (decel_release_enable { iinp0 with prevCruiseButtons := Buttons.SET_DECEL }
      rfl rfl rfl).2 (by decide) (by decide)⟩

end ForEQ
